import Mathlib

/-!
Verification of the BlackSwan Credit Intelligence Platform core queries.

The SQL functions and views of `db/init_db.sql`, the seeded score rows of
the metrics-fix SQL script, and the dashboard table sort of
`ui/components/IssuerTable.tsx` are shallowly embedded as Lean functions
over lists of rows.  `DOUBLE PRECISION` columns are modelled as `ℚ`
(the stored decimals are exact), timestamps as rational hours on a
common clock, and SQL result sets as lists in presentation order.
-/

/-! ### Generic insertion sort (models SQL ORDER BY and Array.prototype.sort) -/

def insertSorted (le : α → α → Bool) (x : α) : List α → List α
  | [] => [x]
  | y :: ys => if le x y then x :: y :: ys else y :: insertSorted le x ys

def sortWith (le : α → α → Bool) : List α → List α
  | [] => []
  | x :: xs => insertSorted le x (sortWith le xs)

theorem mem_insertSorted (le : α → α → Bool) (x a : α) (l : List α) :
    a ∈ insertSorted le x l ↔ a = x ∨ a ∈ l := by
  induction l with
  | nil => simp [insertSorted]
  | cons y ys ih =>
    by_cases h : le x y = true
    · simp [insertSorted, h]
    · simp only [insertSorted, if_neg h, List.mem_cons, ih]
      tauto

theorem mem_sortWith (le : α → α → Bool) (a : α) (l : List α) :
    a ∈ sortWith le l ↔ a ∈ l := by
  induction l with
  | nil => simp [sortWith]
  | cons x xs ih => simp [sortWith, mem_insertSorted, ih]

theorem sortWith_eq_nil (le : α → α → Bool) (l : List α) :
    sortWith le l = [] ↔ l = [] := by
  cases l with
  | nil => simp [sortWith]
  | cons x xs =>
    simp only [sortWith]
    constructor
    · intro h
      have hx : x ∈ insertSorted le x (sortWith le xs) :=
        (mem_insertSorted le x x _).mpr (Or.inl rfl)
      rw [h] at hx
      exact absurd hx (List.not_mem_nil x)
    · intro h; exact absurd h (List.cons_ne_nil x xs)

theorem pairwise_insertSorted (le : α → α → Bool)
    (total : ∀ a b, le a b = true ∨ le b a = true)
    (trans : ∀ a b c, le a b = true → le b c = true → le a c = true)
    (x : α) (l : List α) (h : l.Pairwise (fun a b => le a b = true)) :
    (insertSorted le x l).Pairwise (fun a b => le a b = true) := by
  induction l with
  | nil => simp [insertSorted]
  | cons y ys ih =>
    rcases List.pairwise_cons.mp h with ⟨hy, hys⟩
    by_cases hxy : le x y = true
    · rw [insertSorted, if_pos hxy]
      refine List.pairwise_cons.mpr ⟨?_, h⟩
      intro b hb
      rcases List.mem_cons.mp hb with rfl | hb
      · exact hxy
      · exact trans x y b hxy (hy b hb)
    · rw [insertSorted, if_neg hxy]
      refine List.pairwise_cons.mpr ⟨?_, ih hys⟩
      intro b hb
      rcases (mem_insertSorted le x b ys).mp hb with rfl | hb
      · rcases total b y with h1 | h1
        · exact absurd h1 hxy
        · exact h1
      · exact hy b hb

theorem pairwise_sortWith (le : α → α → Bool)
    (total : ∀ a b, le a b = true ∨ le b a = true)
    (trans : ∀ a b c, le a b = true → le b c = true → le a c = true)
    (l : List α) :
    (sortWith le l).Pairwise (fun a b => le a b = true) := by
  induction l with
  | nil => simp [sortWith]
  | cons x xs ih => exact pairwise_insertSorted le total trans x _ ih

/-! ### Score table rows (`score` in init_db.sql, seeded by the metrics-fix script) -/

structure ScoreRow where
  issuer_id : Int
  ts : ℚ
  score : ℚ
  bucket : String
  base : ℚ
  market : ℚ
  event_delta : ℚ
  macro_adj : ℚ
deriving DecidableEq, Repr

/-- ORDER BY ts DESC on score rows. -/
def scoreTsDesc (r s : ScoreRow) : Bool := decide (s.ts ≤ r.ts)

/-- Projection returned by `get_latest_score`
(score, bucket, ts, base, market, event_delta, macro_adj). -/
structure LatestScoreRow where
  score : ℚ
  bucket : String
  ts : ℚ
  base : ℚ
  market : ℚ
  event_delta : ℚ
  macro_adj : ℚ
deriving DecidableEq, Repr

def projectScore (r : ScoreRow) : LatestScoreRow :=
  ⟨r.score, r.bucket, r.ts, r.base, r.market, r.event_delta, r.macro_adj⟩

/-- `get_latest_score(issuer_id_param)` from init_db.sql:
SELECT score, bucket, ts, base, market, event_delta, macro_adj FROM score
WHERE issuer_id = issuer_id_param ORDER BY ts DESC LIMIT 1. -/
def get_latest_score (db : List ScoreRow) (issuer_id_param : Int) :
    List LatestScoreRow :=
  ((sortWith scoreTsDesc
      (db.filter (fun s => s.issuer_id = issuer_id_param))).take 1).map
    projectScore

theorem scoreTsDesc_total (a b : ScoreRow) :
    scoreTsDesc a b = true ∨ scoreTsDesc b a = true := by
  unfold scoreTsDesc
  rcases le_total a.ts b.ts with h | h
  · exact Or.inr (decide_eq_true h)
  · exact Or.inl (decide_eq_true h)

theorem scoreTsDesc_trans (a b c : ScoreRow) :
    scoreTsDesc a b = true → scoreTsDesc b c = true → scoreTsDesc a c = true := by
  unfold scoreTsDesc
  intro h1 h2
  exact decide_eq_true (le_trans (of_decide_eq_true h2) (of_decide_eq_true h1))

/-- C9: `get_latest_score` returns zero rows when the issuer has no Score
rows, and exactly one row — the projection of an issuer Score row of
maximum timestamp — when it has at least one. -/
theorem get_latest_score_spec (db : List ScoreRow) (issuer : Int) :
    ((∀ r ∈ db, r.issuer_id ≠ issuer) → get_latest_score db issuer = []) ∧
    (∀ r ∈ db, r.issuer_id = issuer →
      ∃ m, m ∈ db ∧ m.issuer_id = issuer ∧
        get_latest_score db issuer = [projectScore m] ∧
        ∀ s ∈ db, s.issuer_id = issuer → s.ts ≤ m.ts) := by
  constructor
  · intro hnone
    unfold get_latest_score
    have hfil : db.filter (fun s => s.issuer_id = issuer) = [] := by
      rw [List.filter_eq_nil_iff]
      intro a ha
      simpa using hnone a ha
    rw [hfil]
    rfl
  · intro r hr hrid
    set L := db.filter (fun s => s.issuer_id = issuer) with hL
    have hrL : r ∈ L := by
      rw [hL, List.mem_filter]
      exact ⟨hr, by simpa using hrid⟩
    have hLne : L ≠ [] := fun h => by rw [h] at hrL; exact absurd hrL (List.not_mem_nil r)
    have hsne : sortWith scoreTsDesc L ≠ [] := fun h => hLne ((sortWith_eq_nil _ _).mp h)
    cases hs : sortWith scoreTsDesc L with
    | nil => exact absurd hs hsne
    | cons m rest =>
      have hmem : ∀ s, s ∈ L ↔ s ∈ m :: rest := by
        intro s; rw [← hs, mem_sortWith]
      have hmL : m ∈ L := (hmem m).mpr (List.mem_cons_self m rest)
      have hmdb : m ∈ db := (List.mem_filter.mp hmL).1
      have hmid : m.issuer_id = issuer := by
        have := (List.mem_filter.mp hmL).2; simpa using this
      have hpw := pairwise_sortWith scoreTsDesc scoreTsDesc_total scoreTsDesc_trans L
      rw [hs] at hpw
      rcases List.pairwise_cons.mp hpw with ⟨hmax, _⟩
      refine ⟨m, hmdb, hmid, ?_, ?_⟩
      · unfold get_latest_score
        rw [← hL, hs]
        rfl
      · intro s hsdb hsid
        have hsL : s ∈ L := by
          rw [hL, List.mem_filter]
          exact ⟨hsdb, by simpa using hsid⟩
        rcases List.mem_cons.mp ((hmem s).mp hsL) with rfl | hsrest
        · exact le_refl _
        · exact of_decide_eq_true (hmax s hsrest)

/-- C9 witness: on a two-row database, the later row is returned for
issuer 1 and the empty list for issuer 2. -/
theorem get_latest_score_spec_witness :
    (get_latest_score
        [⟨1, 0, 87.2, "AA", 60.5, 12.8, 8.5, 5.4⟩,
         ⟨1, 24, 88.1, "AA", 61.2, 12.9, 8.6, 5.4⟩] 2 = []) ∧
    (∃ m, m ∈ [(⟨1, 0, 87.2, "AA", 60.5, 12.8, 8.5, 5.4⟩ : ScoreRow),
               ⟨1, 24, 88.1, "AA", 61.2, 12.9, 8.6, 5.4⟩] ∧
      m.issuer_id = 1 ∧
      get_latest_score
        [⟨1, 0, 87.2, "AA", 60.5, 12.8, 8.5, 5.4⟩,
         ⟨1, 24, 88.1, "AA", 61.2, 12.9, 8.6, 5.4⟩] 1 = [projectScore m] ∧
      ∀ s ∈ [(⟨1, 0, 87.2, "AA", 60.5, 12.8, 8.5, 5.4⟩ : ScoreRow),
             ⟨1, 24, 88.1, "AA", 61.2, 12.9, 8.6, 5.4⟩],
        s.issuer_id = 1 → s.ts ≤ m.ts) :=
  ⟨(get_latest_score_spec _ 2).1 (by decide),
   (get_latest_score_spec _ 1).2 ⟨1, 0, 87.2, "AA", 60.5, 12.8, 8.5, 5.4⟩
     (List.mem_cons_self _ _) rfl⟩

/-! ### get_score_change (init_db.sql) -/

/-- Result row of `get_score_change`
(score_change, current_score, previous_score). -/
structure ScoreChangeRow where
  score_change : ℚ
  current_score : ℚ
  previous_score : ℚ
deriving DecidableEq, Repr

/-- `get_score_change(issuer_id_param, hours_back)` from init_db.sql.
The CTE `current_score` is the latest score row of the issuer
(ORDER BY ts DESC LIMIT 1); the CTE `previous_score` is the latest
issuer row with `ts <= current.ts - hours_back` hours; the final
SELECT is `current_score CROSS JOIN previous_score`, so when either
CTE is empty the result set is empty.  In the joined rows `ps.score`
is never NULL, so `COALESCE(ps.score, cs.score)` is `ps.score`. -/
def get_score_change (db : List ScoreRow) (issuer_id_param : Int)
    (hours_back : ℚ) : List ScoreChangeRow :=
  let issuer_rows := db.filter (fun s => s.issuer_id = issuer_id_param)
  ((sortWith scoreTsDesc issuer_rows).take 1).flatMap (fun cs =>
    ((sortWith scoreTsDesc
        (issuer_rows.filter (fun s => s.ts ≤ cs.ts - hours_back))).take 1).map
      (fun ps => ⟨cs.score - ps.score, cs.score, ps.score⟩))

/-- C1: for an issuer whose only Score row is 24 hours old at most,
`get_score_change` returns the empty result set, not the documented
fallback row with `score_change = 0` — the `previous_score` CTE is empty
and the `CROSS JOIN` drops the current row, leaving the `COALESCE`
fallback unreachable. -/
theorem get_score_change_single_row_empty :
    get_score_change [⟨1, 0, 87.2, "AA", 60.5, 12.8, 8.5, 5.4⟩] 1 24 = [] ∧
    get_score_change [⟨1, 0, 87.2, "AA", 60.5, 12.8, 8.5, 5.4⟩] 1 24 ≠
      [⟨0, 87.2, 87.2⟩] := by
  have h : get_score_change [⟨1, 0, 87.2, "AA", 60.5, 12.8, 8.5, 5.4⟩] 1 24 = [] := by
    norm_num [get_score_change, sortWith, insertSorted, scoreTsDesc]
  exact ⟨h, fun hc => by rw [h] at hc; exact absurd hc (by simp)⟩

/-! ### Seeded score rows (the metrics-fix SQL script) -/

/-- `clip(x, lo, hi)`: clamp a value into a closed interval. -/
def clip (x lo hi : ℚ) : ℚ := max lo (min hi x)

/-- The 30 score rows inserted by the metrics-fix SQL script
(`INSERT INTO score (issuer_id, ts, score, bucket, base, market,
event_delta, macro_adj, ...) VALUES ...`).  Timestamps are hours
relative to `NOW()`: `NOW() - INTERVAL '48 hours'` is `-48` and
`NOW() - INTERVAL '24 hours'` is `-24`. -/
def mockScoreRows : List ScoreRow :=
  [⟨1, -48, 87.2, "AA", 60.5, 12.8, 8.5, 5.4⟩,
   ⟨1, -24, 88.1, "AA", 61.2, 12.9, 8.6, 5.4⟩,
   ⟨2, -48, 88.5, "AA", 61.8, 13.1, 8.7, 4.9⟩,
   ⟨2, -24, 89.2, "AA", 62.1, 13.2, 8.8, 5.1⟩,
   ⟨3, -48, 82.1, "A", 58.3, 11.2, 7.8, 4.8⟩,
   ⟨3, -24, 83.1, "A", 58.9, 11.5, 7.9, 4.8⟩,
   ⟨4, -48, 81.2, "A", 59.1, 11.8, 7.5, 2.8⟩,
   ⟨4, -24, 80.1, "A", 58.7, 11.5, 7.3, 2.6⟩,
   ⟨5, -48, 68.5, "BBB", 52.3, 8.9, 5.2, 2.1⟩,
   ⟨5, -24, 67.2, "BBB", 51.8, 8.7, 5.1, 1.6⟩,
   ⟨6, -48, 85.3, "AA", 60.2, 12.1, 8.2, 4.8⟩,
   ⟨6, -24, 86.1, "AA", 60.8, 12.3, 8.3, 4.7⟩,
   ⟨7, -48, 78.9, "A", 56.4, 10.2, 7.1, 5.2⟩,
   ⟨7, -24, 79.8, "A", 57.1, 10.4, 7.2, 5.1⟩,
   ⟨8, -48, 76.2, "A", 54.8, 9.8, 6.9, 4.7⟩,
   ⟨8, -24, 77.1, "A", 55.3, 10.1, 7.0, 4.7⟩,
   ⟨9, -48, 82.7, "A", 58.9, 11.3, 7.8, 4.7⟩,
   ⟨9, -24, 83.5, "A", 59.4, 11.6, 7.9, 4.6⟩,
   ⟨10, -48, 87.1, "AA", 61.2, 12.5, 8.4, 5.0⟩,
   ⟨10, -24, 87.9, "AA", 61.7, 12.7, 8.5, 5.0⟩,
   ⟨11, -48, 89.3, "AA", 62.8, 13.1, 8.6, 4.8⟩,
   ⟨11, -24, 90.1, "AA", 63.2, 13.3, 8.7, 4.9⟩,
   ⟨12, -48, 75.8, "A", 54.2, 9.6, 6.8, 5.2⟩,
   ⟨12, -24, 76.7, "A", 54.8, 9.8, 6.9, 5.2⟩,
   ⟨13, -48, 71.4, "BBB", 51.8, 8.9, 6.2, 4.5⟩,
   ⟨13, -24, 72.3, "BBB", 52.3, 9.1, 6.3, 4.6⟩,
   ⟨14, -48, 73.8, "BBB", 53.1, 9.3, 6.5, 4.9⟩,
   ⟨14, -24, 74.7, "BBB", 53.6, 9.5, 6.6, 5.0⟩,
   ⟨15, -48, 91.2, "AA", 64.5, 13.8, 8.9, 4.0⟩,
   ⟨15, -24, 92.1, "AA", 65.1, 14.0, 9.0, 4.0⟩]

/-- C3: for every seeded Score row, clipping the sum of the four stored
pillar values to [0, 100] reproduces the stored score within 1e-6; in
particular the two concrete pillar combinations of the claim yield 87.2
and 88.5. -/
theorem mock_score_pillar_sum (r : ScoreRow) (h : r ∈ mockScoreRows) :
    |clip (r.base + r.market + r.event_delta + r.macro_adj) 0 100 - r.score|
        ≤ 1 / 1000000 ∧
    clip (60.5 + 12.8 + 8.5 + 5.4) 0 100 = 87.2 ∧
    clip (61.8 + 13.1 + 8.7 + 4.9) 0 100 = 88.5 := by
  refine ⟨?_, by norm_num [clip], by norm_num [clip]⟩
  fin_cases h <;> norm_num [clip]

/-- C3 witness: the first seeded row satisfies the reconstruction bound. -/
theorem mock_score_pillar_sum_witness :
    |clip ((60.5 : ℚ) + 12.8 + 8.5 + 5.4) 0 100 - 87.2| ≤ 1 / 1000000 :=
  (mock_score_pillar_sum ⟨1, -48, 87.2, "AA", 60.5, 12.8, 8.5, 5.4⟩
    (List.mem_cons_self _ _)).1

/-! ### Rating bucket mapping -/

/-- Modelled from the spec: the default ordered bucket breakpoints with
inclusive lower bounds (score ≥ 90 AAA, 80–89 AA, 70–79 A, 60–69 BBB,
50–59 BB, 40–49 B, below 40 CCC).  The bucket-assigning code itself is
in the scoring worker, which is not part of the available sources. -/
def defaultBucket (score : ℚ) : String :=
  if 90 ≤ score then "AAA"
  else if 80 ≤ score then "AA"
  else if 70 ≤ score then "A"
  else if 60 ≤ score then "BBB"
  else if 50 ≤ score then "BB"
  else if 40 ≤ score then "B"
  else "CCC"

/-- The ordered inclusive-lower-bound breakpoints that the seeded score
rows actually follow (AA from 85, A from 75, BBB below — matching the
sample ranges AA 85–92, A 76–84, BBB 67–76 observed in the data). -/
def sampleBucket (score : ℚ) : String :=
  if 93 ≤ score then "AAA"
  else if 85 ≤ score then "AA"
  else if 75 ≤ score then "A"
  else if 60 ≤ score then "BBB"
  else if 50 ≤ score then "BB"
  else if 40 ≤ score then "B"
  else "CCC"

/-- C6 counterexample: the seeded row for issuer 3 stores score 82.1 with
bucket "A", but the claimed default breakpoints map 82.1 to "AA". -/
theorem mock_bucket_default_counterexample :
    mockScoreRows.get? 4 = some ⟨3, -48, 82.1, "A", 58.3, 11.2, 7.8, 4.8⟩ ∧
    defaultBucket 82.1 = "AA" ∧ ("AA" : String) ≠ "A" := by
  refine ⟨rfl, by norm_num [defaultBucket], by decide⟩

/-- C6 (amended): every seeded Score row's bucket is the deterministic
inclusive-lower-bound breakpoint function of its score with thresholds
93/85/75/60/50/40 (AAA/AA/A/BBB/BB/B, else CCC). -/
theorem mock_bucket_sample_consistent (r : ScoreRow) (h : r ∈ mockScoreRows) :
    r.bucket = sampleBucket r.score := by
  fin_cases h <;> norm_num [sampleBucket]

/-- C6 witness: the first seeded row's bucket matches the sample
breakpoints. -/
theorem mock_bucket_sample_consistent_witness :
    (⟨1, -48, 87.2, "AA", 60.5, 12.8, 8.5, 5.4⟩ : ScoreRow).bucket =
      sampleBucket (⟨1, -48, 87.2, "AA", 60.5, 12.8, 8.5, 5.4⟩ : ScoreRow).score :=
  mock_bucket_sample_consistent _ (List.mem_cons_self _ _)

/-! ### Event table and get_active_events (init_db.sql) -/

/-- A row of the `event` table (the columns used by `get_active_events`).
`ts` is in hours on the shared clock; `decay_factor` is the stored
column (DEFAULT 1.0). -/
structure EventRow where
  id : Int
  issuer_id : Int
  ts : ℚ
  type : String
  sentiment : ℚ
  weight : ℚ
  headline : String
  decay_factor : ℚ
deriving DecidableEq, Repr

/-- ORDER BY ts DESC on event rows. -/
def eventTsDesc (r s : EventRow) : Bool := decide (s.ts ≤ r.ts)

/-- `get_active_events(issuer_id_param, hours_back)` from init_db.sql:
SELECT id, type, headline, sentiment, weight, decay_factor, ts FROM event
WHERE issuer_id = issuer_id_param AND ts >= now() - INTERVAL '1 hour' * hours_back
AND decay_factor > 0.1 ORDER BY ts DESC.  `now` is the clock value at
query time. -/
def get_active_events (db : List EventRow) (now : ℚ) (issuer_id_param : Int)
    (hours_back : ℚ) : List EventRow :=
  sortWith eventTsDesc
    (db.filter (fun e =>
      e.issuer_id = issuer_id_param ∧ now - hours_back ≤ e.ts ∧
        (0.1 : ℚ) < e.decay_factor))

/-- C5: every event returned by `get_active_events` belongs to the
requested issuer, lies within the last `hours_back` hours, and has
`decay_factor` strictly greater than 0.1 — in particular no returned
event has `decay_factor ≤ 0.1`. -/
theorem get_active_events_spec (db : List EventRow) (now : ℚ)
    (issuer : Int) (hours_back : ℚ) (e : EventRow)
    (h : e ∈ get_active_events db now issuer hours_back) :
    e ∈ db ∧ e.issuer_id = issuer ∧ now - hours_back ≤ e.ts ∧
      (0.1 : ℚ) < e.decay_factor ∧ ¬ e.decay_factor ≤ (0.1 : ℚ) := by
  have hf : e ∈ db.filter (fun e =>
      e.issuer_id = issuer ∧ now - hours_back ≤ e.ts ∧
        (0.1 : ℚ) < e.decay_factor) :=
    (mem_sortWith _ _ _).mp h
  rcases List.mem_filter.mp hf with ⟨hdb, hprop⟩
  rcases of_decide_eq_true hprop with ⟨h1, h2, h3⟩
  exact ⟨hdb, h1, h2, h3, not_le.mpr h3⟩

/-- C5 witness: a concrete one-event database where the event is
returned and satisfies the guarantees. -/
theorem get_active_events_spec_witness :
    (⟨1, 1, -2, "earnings", 0.9, 8.0, "beat", 0.99⟩ : EventRow) ∈
        [(⟨1, 1, -2, "earnings", 0.9, 8.0, "beat", 0.99⟩ : EventRow)] ∧
    (⟨1, 1, -2, "earnings", 0.9, 8.0, "beat", 0.99⟩ : EventRow).issuer_id = 1 ∧
    (0 : ℚ) - 168 ≤ (⟨1, 1, -2, "earnings", 0.9, 8.0, "beat", 0.99⟩ : EventRow).ts ∧
    (0.1 : ℚ) < (⟨1, 1, -2, "earnings", 0.9, 8.0, "beat", 0.99⟩ : EventRow).decay_factor ∧
    ¬ (⟨1, 1, -2, "earnings", 0.9, 8.0, "beat", 0.99⟩ : EventRow).decay_factor ≤ (0.1 : ℚ) :=
  get_active_events_spec [⟨1, 1, -2, "earnings", 0.9, 8.0, "beat", 0.99⟩] 0 1 168
    ⟨1, 1, -2, "earnings", 0.9, 8.0, "beat", 0.99⟩
    (by norm_num [get_active_events, sortWith, insertSorted, eventTsDesc])

/-! ### Default model metadata (init_db.sql INSERT, setup_env.sh) -/

/-- The scoring weights carried by the default registered model row
(model_version v1.0): the `scoring_weights` JSON of the
`INSERT INTO model_metadata` statement, matching SCORING_WEIGHTS_* in
setup_env.sh. -/
structure ScoringWeights where
  base : ℚ
  market : ℚ
  event : ℚ
  macro_weight : ℚ
deriving DecidableEq, Repr

def defaultScoringWeights : ScoringWeights :=
  ⟨0.55, 0.25, 0.12, 0.08⟩

/-- C7: the default model metadata carries pillar weights base 0.55,
market 0.25, event 0.12, macro 0.08, and the four weights sum to 1. -/
theorem default_scoring_weights_sum :
    defaultScoringWeights.base = 0.55 ∧
    defaultScoringWeights.market = 0.25 ∧
    defaultScoringWeights.event = 0.12 ∧
    defaultScoringWeights.macro_weight = 0.08 ∧
    defaultScoringWeights.base + defaultScoringWeights.market +
      defaultScoringWeights.event + defaultScoringWeights.macro_weight = 1 := by
  refine ⟨rfl, rfl, rfl, rfl, ?_⟩
  norm_num [defaultScoringWeights]

/-! ### recent_alerts view (init_db.sql) -/

/-- A row of the `alert_history` table.  `subscription_id` is nullable
(and the subscription it points at may have been deleted). -/
structure AlertHistoryRow where
  id : Int
  subscription_id : Option Int
  issuer_id : Int
  alert_type : String
  message : String
  score_change : ℚ
  triggered_at : ℚ
deriving DecidableEq, Repr

/-- A row of the `issuer` table (the columns used by `recent_alerts`). -/
structure IssuerRow where
  id : Int
  name : String
  ticker : Option String
deriving DecidableEq, Repr

/-- A row of the `alert_subscription` table (the columns used by
`recent_alerts` and the alert evaluator). -/
structure SubscriptionRow where
  id : Int
  issuer_id : Int
  email : Option String
  webhook_url : Option String
  threshold : ℚ
  is_active : Bool
deriving DecidableEq, Repr

/-- Output row of the `recent_alerts` view. -/
structure RecentAlertRow where
  id : Int
  alert_type : String
  message : String
  score_change : ℚ
  triggered_at : ℚ
  issuer_name : String
  ticker : Option String
  email : Option String
  webhook_url : Option String
deriving DecidableEq, Repr

/-- ORDER BY triggered_at DESC on view rows. -/
def alertTrigDesc (r s : RecentAlertRow) : Bool :=
  decide (s.triggered_at ≤ r.triggered_at)

/-- The subscription row a `LEFT JOIN alert_subscription asub ON
ah.subscription_id = asub.id` pairs with an alert row (`asub.id` is the
primary key, so at most one row matches). -/
def subLookup (subs : List SubscriptionRow) (ah : AlertHistoryRow) :
    Option SubscriptionRow :=
  ah.subscription_id.bind (fun sid => (subs.filter (fun s => s.id = sid)).head?)

/-- The `recent_alerts` view from init_db.sql:
SELECT ah.id, ah.alert_type, ah.message, ah.score_change, ah.triggered_at,
i.name, i.ticker, asub.email, asub.webhook_url
FROM alert_history ah JOIN issuer i ON ah.issuer_id = i.id
LEFT JOIN alert_subscription asub ON ah.subscription_id = asub.id
WHERE ah.triggered_at >= now() - INTERVAL '24 hours'
ORDER BY ah.triggered_at DESC. -/
def recent_alerts (alerts : List AlertHistoryRow) (issuers : List IssuerRow)
    (subs : List SubscriptionRow) (now : ℚ) : List RecentAlertRow :=
  sortWith alertTrigDesc
    ((alerts.filter (fun ah => now - 24 ≤ ah.triggered_at)).flatMap (fun ah =>
      (issuers.filter (fun i => i.id = ah.issuer_id)).map (fun i =>
        ⟨ah.id, ah.alert_type, ah.message, ah.score_change, ah.triggered_at,
         i.name, i.ticker,
         (subLookup subs ah).bind SubscriptionRow.email,
         (subLookup subs ah).bind SubscriptionRow.webhook_url⟩)))

theorem alertTrigDesc_total (a b : RecentAlertRow) :
    alertTrigDesc a b = true ∨ alertTrigDesc b a = true := by
  unfold alertTrigDesc
  rcases le_total a.triggered_at b.triggered_at with h | h
  · exact Or.inr (decide_eq_true h)
  · exact Or.inl (decide_eq_true h)

theorem alertTrigDesc_trans (a b c : RecentAlertRow) :
    alertTrigDesc a b = true → alertTrigDesc b c = true →
      alertTrigDesc a c = true := by
  unfold alertTrigDesc
  intro h1 h2
  exact decide_eq_true (le_trans (of_decide_eq_true h2) (of_decide_eq_true h1))

/-- C8: every row of `recent_alerts` comes from an AlertHistory row whose
`triggered_at` is within the trailing 24 hours, carries the identity of
its issuer and the lookup of its (possibly deleted) subscription, and
the view is ordered from most recent to oldest `triggered_at`. -/
theorem recent_alerts_spec (alerts : List AlertHistoryRow)
    (issuers : List IssuerRow) (subs : List SubscriptionRow) (now : ℚ) :
    (∀ row ∈ recent_alerts alerts issuers subs now,
      ∃ ah, ah ∈ alerts ∧ now - 24 ≤ ah.triggered_at ∧
        row.triggered_at = ah.triggered_at ∧
        row.score_change = ah.score_change ∧
        row.alert_type = ah.alert_type ∧
        row.message = ah.message ∧
        row.email = (subLookup subs ah).bind SubscriptionRow.email ∧
        row.webhook_url = (subLookup subs ah).bind SubscriptionRow.webhook_url ∧
        ∃ i, i ∈ issuers ∧ i.id = ah.issuer_id ∧
          row.issuer_name = i.name ∧ row.ticker = i.ticker) ∧
    (recent_alerts alerts issuers subs now).Pairwise
      (fun r s => s.triggered_at ≤ r.triggered_at) := by
  constructor
  · intro row hrow
    have h1 : row ∈ (alerts.filter
        (fun ah => now - 24 ≤ ah.triggered_at)).flatMap (fun ah =>
          (issuers.filter (fun i => i.id = ah.issuer_id)).map (fun i =>
            ⟨ah.id, ah.alert_type, ah.message, ah.score_change, ah.triggered_at,
             i.name, i.ticker,
             (subLookup subs ah).bind SubscriptionRow.email,
             (subLookup subs ah).bind SubscriptionRow.webhook_url⟩)) :=
      (mem_sortWith _ _ _).mp hrow
    rcases List.mem_flatMap.mp h1 with ⟨ah, hahf, hmap⟩
    rcases List.mem_filter.mp hahf with ⟨hahdb, hwin⟩
    rcases List.mem_map.mp hmap with ⟨i, hif, hrfl⟩
    rcases List.mem_filter.mp hif with ⟨hidb, hiid⟩
    refine ⟨ah, hahdb, of_decide_eq_true hwin, ?_⟩
    subst hrfl
    exact ⟨rfl, rfl, rfl, rfl, rfl, rfl,
      i, hidb, of_decide_eq_true hiid, rfl, rfl⟩
  · exact List.Pairwise.imp (fun h => of_decide_eq_true h)
      (pairwise_sortWith alertTrigDesc alertTrigDesc_total alertTrigDesc_trans _)

/-- C8 witness: a concrete view instance with one in-window alert row. -/
theorem recent_alerts_spec_witness :
    ∃ ah, ah ∈ [(⟨1, some 1, 1, "score_change", "moved", 6, -2⟩ : AlertHistoryRow)] ∧
      (0 : ℚ) - 24 ≤ ah.triggered_at ∧
      (⟨1, "score_change", "moved", 6, -2, "Apple Inc", some "AAPL",
        some "ops", none⟩ : RecentAlertRow).triggered_at = ah.triggered_at ∧
      (⟨1, "score_change", "moved", 6, -2, "Apple Inc", some "AAPL",
        some "ops", none⟩ : RecentAlertRow).score_change = ah.score_change ∧
      (⟨1, "score_change", "moved", 6, -2, "Apple Inc", some "AAPL",
        some "ops", none⟩ : RecentAlertRow).alert_type = ah.alert_type ∧
      (⟨1, "score_change", "moved", 6, -2, "Apple Inc", some "AAPL",
        some "ops", none⟩ : RecentAlertRow).message = ah.message ∧
      (⟨1, "score_change", "moved", 6, -2, "Apple Inc", some "AAPL",
        some "ops", none⟩ : RecentAlertRow).email =
        (subLookup [⟨1, 1, some "ops", none, 5, true⟩] ah).bind
          SubscriptionRow.email ∧
      (⟨1, "score_change", "moved", 6, -2, "Apple Inc", some "AAPL",
        some "ops", none⟩ : RecentAlertRow).webhook_url =
        (subLookup [⟨1, 1, some "ops", none, 5, true⟩] ah).bind
          SubscriptionRow.webhook_url ∧
      ∃ i, i ∈ [(⟨1, "Apple Inc", some "AAPL"⟩ : IssuerRow)] ∧
        i.id = ah.issuer_id ∧
        (⟨1, "score_change", "moved", 6, -2, "Apple Inc", some "AAPL",
          some "ops", none⟩ : RecentAlertRow).issuer_name = i.name ∧
        (⟨1, "score_change", "moved", 6, -2, "Apple Inc", some "AAPL",
          some "ops", none⟩ : RecentAlertRow).ticker = i.ticker :=
  (recent_alerts_spec [⟨1, some 1, 1, "score_change", "moved", 6, -2⟩]
      [⟨1, "Apple Inc", some "AAPL"⟩] [⟨1, 1, some "ops", none, 5, true⟩] 0).1
    ⟨1, "score_change", "moved", 6, -2, "Apple Inc", some "AAPL",
      some "ops", none⟩
    (by norm_num [recent_alerts, sortWith, insertSorted, alertTrigDesc,
      subLookup, List.filter, List.flatMap])

/-! ### Alert evaluator (spec §4.5) -/

/-- Modelled from the spec: the Alert Evaluator step for one subscription
after a scoring cycle — code not among the available sources (only the
`alert_history` table it writes is).  If `|score_change|` reaches the
subscription threshold it checks whether an AlertHistory row for this
subscription already exists with `triggered_at` within the dedupe
window and suppresses if so; otherwise it writes exactly one new
AlertHistory row with the numeric score change, triggered at the
current time. -/
def evaluate_alert (history : List AlertHistoryRow) (sub : SubscriptionRow)
    (score_change now dedupe_window : ℚ) : List AlertHistoryRow :=
  if sub.threshold ≤ |score_change| then
    if history.any (fun a => decide (a.subscription_id = some sub.id ∧
        now - dedupe_window ≤ a.triggered_at)) then
      history
    else
      ⟨(history.length : Int), some sub.id, sub.issuer_id, "score_change",
        "Score moved beyond threshold", score_change, now⟩ :: history
  else history

/-- C2: two scoring cycles inside one dedupe window that both produce a
qualifying move for the same subscription create exactly one new
AlertHistory row for that subscription — the second move is suppressed. -/
theorem alert_dedupe_once (sub : SubscriptionRow) (h0 : List AlertHistoryRow)
    (c1 c2 t1 t2 w : ℚ)
    (hth1 : sub.threshold ≤ |c1|) (hth2 : sub.threshold ≤ |c2|)
    (hwin : t2 - t1 ≤ w)
    (hclean : ∀ a ∈ h0, a.subscription_id ≠ some sub.id) :
    ((evaluate_alert (evaluate_alert h0 sub c1 t1 w) sub c2 t2 w).filter
        (fun a => decide (a.subscription_id = some sub.id))).length = 1 := by
  have hany1 : h0.any (fun a => decide (a.subscription_id = some sub.id ∧
      t1 - w ≤ a.triggered_at)) = false := by
    rw [List.any_eq_false]
    intro a ha
    simp only [decide_eq_true_eq, not_and]
    intro hs
    exact absurd hs (hclean a ha)
  have h1 : evaluate_alert h0 sub c1 t1 w =
      ⟨(h0.length : Int), some sub.id, sub.issuer_id, "score_change",
        "Score moved beyond threshold", c1, t1⟩ :: h0 := by
    unfold evaluate_alert
    rw [if_pos hth1, hany1]
    simp
  have h2 : evaluate_alert (evaluate_alert h0 sub c1 t1 w) sub c2 t2 w =
      evaluate_alert h0 sub c1 t1 w := by
    rw [h1]
    unfold evaluate_alert
    rw [if_pos hth2]
    have hmatch : ((⟨(h0.length : Int), some sub.id, sub.issuer_id,
        "score_change", "Score moved beyond threshold", c1, t1⟩ :
          AlertHistoryRow) :: h0).any
        (fun a => decide (a.subscription_id = some sub.id ∧
          t2 - w ≤ a.triggered_at)) = true := by
      rw [List.any_cons]
      apply Bool.or_eq_true_iff.mpr
      left
      exact decide_eq_true ⟨rfl, by linarith⟩
    rw [hmatch]
    simp
  rw [h2, h1]
  have hfil : h0.filter (fun a => decide (a.subscription_id = some sub.id)) = [] := by
    rw [List.filter_eq_nil_iff]
    intro a ha
    simpa using hclean a ha
  simp [List.filter, hfil]

/-- C2 witness: a concrete subscription with threshold 5, two moves of
6 points ten hours apart inside a 24-hour dedupe window, starting from
empty history: exactly one AlertHistory row results. -/
theorem alert_dedupe_once_witness :
    ((evaluate_alert (evaluate_alert [] ⟨1, 1, none, none, 5, true⟩ 6 0 24)
        ⟨1, 1, none, none, 5, true⟩ 6 10 24).filter
      (fun a => decide (a.subscription_id =
        some (⟨1, 1, none, none, 5, true⟩ : SubscriptionRow).id))).length = 1 :=
  alert_dedupe_once ⟨1, 1, none, none, 5, true⟩ [] 6 6 0 10 24
    (by norm_num) (by norm_num) (by norm_num) (by simp)

/-! ### Event decay factor (spec §4.2, EVENT_HALF_LIFE_DAYS in setup_env.sh) -/

/-- Modelled from the spec: the Event Decay Tracker's decay factor
`exp(-ln(2) * elapsed_hours / half_life_hours)` — the recomputing code
is in the scoring worker, which is not among the available sources;
the `event` table only stores the column (DEFAULT 1.0). -/
noncomputable def decay_factor (half_life_hours elapsed_hours : ℝ) : ℝ :=
  Real.exp (-(Real.log 2) * elapsed_hours / half_life_hours)

/-- Default half-life: EVENT_HALF_LIFE_DAYS=7 in setup_env.sh, in hours. -/
def default_half_life_hours : ℝ := 7 * 24

/-- C4: with the default half-life of 7 days × 24 hours, the decay factor
is exp(-ln(2)·elapsed/half_life); it equals 1 at ingestion, is never
negative, and for any two elapsed times t₁ < t₂ the later factor is at
most the earlier one — it only decreases, never resets or grows. -/
theorem decay_factor_spec (t1 t2 : ℝ) (h12 : t1 < t2) :
    decay_factor default_half_life_hours t1 =
      Real.exp (-(Real.log 2) * t1 / (7 * 24)) ∧
    decay_factor default_half_life_hours 0 = 1 ∧
    0 ≤ decay_factor default_half_life_hours t2 ∧
    decay_factor default_half_life_hours t2 ≤
      decay_factor default_half_life_hours t1 := by
  have hlog : (0 : ℝ) < Real.log 2 := Real.log_pos (by norm_num)
  refine ⟨rfl, ?_, (Real.exp_pos _).le, ?_⟩
  · unfold decay_factor
    norm_num [Real.exp_zero]
  · unfold decay_factor default_half_life_hours
    apply Real.exp_le_exp.mpr
    have hmul : -(Real.log 2) * t2 ≤ -(Real.log 2) * t1 := by nlinarith
    exact div_le_div_of_nonneg_right hmul (by norm_num)

/-- C4 witness: one hour of decay does not increase the factor, and the
factor at ingestion is 1. -/
theorem decay_factor_spec_witness :
    decay_factor default_half_life_hours 1 ≤
      decay_factor default_half_life_hours 0 ∧
    decay_factor default_half_life_hours 0 = 1 :=
  ⟨(decay_factor_spec 0 1 (by norm_num)).2.2.2,
   (decay_factor_spec 0 1 (by norm_num)).2.1⟩

/-! ### IssuerTable sort (ui/components/IssuerTable.tsx) -/

/-- A JavaScript value held by an `Issuer` field: `null`, a string, or a
number. -/
inductive JsVal where
  | null : JsVal
  | str : String → JsVal
  | num : ℚ → JsVal
deriving DecidableEq, Repr

/-- The `Issuer` interface of the dashboard (types/issuer.ts). -/
structure Issuer where
  id : Int
  name : String
  ticker : Option String
  sector : Option String
  country : Option String
  score : Option ℚ
  bucket : Option String
  delta_24h : ℚ
  score_ts : Option String
deriving DecidableEq, Repr

/-- A sortable field of `Issuer` (`keyof Issuer`). -/
inductive SortField where
  | id | name | ticker | sector | country | score | bucket | delta_24h | score_ts
deriving DecidableEq, Repr

inductive SortDir where
  | asc | desc
deriving DecidableEq, Repr

def getField (i : Issuer) : SortField → JsVal
  | .id => .num (i.id : ℚ)
  | .name => .str i.name
  | .ticker => match i.ticker with | none => .null | some s => .str s
  | .sector => match i.sector with | none => .null | some s => .str s
  | .country => match i.country with | none => .null | some s => .str s
  | .score => match i.score with | none => .null | some q => .num q
  | .bucket => match i.bucket with | none => .null | some s => .str s
  | .delta_24h => .num i.delta_24h
  | .score_ts => match i.score_ts with | none => .null | some s => .str s

/-- Sign model of `String.prototype.localeCompare` (any total string
order; the collation details do not matter for the sort's null
placement). -/
def strCmp (a b : String) : Int :=
  match compare a b with
  | .lt => -1
  | .eq => 0
  | .gt => 1

/-- The comparator of `sortedIssuers` in IssuerTable.tsx:
both null → 0; a null → 1; b null → -1; two strings → localeCompare
in the chosen direction; two numbers → sign of the difference in the
chosen direction; anything else → 0. -/
def jsCompare (dir : SortDir) (a b : JsVal) : Int :=
  match a, b with
  | .null, .null => 0
  | .null, _ => 1
  | _, .null => -1
  | .str s1, .str s2 =>
      match dir with
      | .asc => strCmp s1 s2
      | .desc => strCmp s2 s1
  | .num q1, .num q2 =>
      match dir with
      | .asc => if q1 < q2 then -1 else if q2 < q1 then 1 else 0
      | .desc => if q2 < q1 then -1 else if q1 < q2 then 1 else 0
  | _, _ => 0

/-- `a` may stay before `b` under the comparator (comparator value ≤ 0). -/
def issuerLe (f : SortField) (dir : SortDir) (a b : Issuer) : Bool :=
  decide (jsCompare dir (getField a f) (getField b f) ≤ 0)

/-- `[...issuers].sort((a, b) => ...)` of IssuerTable.tsx. -/
def sortedIssuers (f : SortField) (dir : SortDir) (issuers : List Issuer) :
    List Issuer :=
  sortWith (issuerLe f dir) issuers

def isNullField (i : Issuer) (f : SortField) : Bool :=
  decide (getField i f = JsVal.null)

theorem insertSorted_null_after (le : α → α → Bool) (nl : α → Bool)
    (h1 : ∀ a b, le a b = true → nl a = true → nl b = true)
    (h2 : ∀ a b, le a b = false → nl b = true → nl a = true)
    (x : α) (l : List α)
    (h : l.Pairwise (fun a b => nl a = true → nl b = true)) :
    (insertSorted le x l).Pairwise (fun a b => nl a = true → nl b = true) := by
  induction l with
  | nil => simp [insertSorted]
  | cons y ys ih =>
    rcases List.pairwise_cons.mp h with ⟨hy, hys⟩
    by_cases hxy : le x y = true
    · rw [insertSorted, if_pos hxy]
      refine List.pairwise_cons.mpr ⟨?_, h⟩
      intro b hb hx
      have hny : nl y = true := h1 x y hxy hx
      rcases List.mem_cons.mp hb with rfl | hb
      · exact hny
      · exact hy b hb hny
    · rw [insertSorted, if_neg hxy]
      refine List.pairwise_cons.mpr ⟨?_, ih hys⟩
      intro b hb hny
      rcases (mem_insertSorted le x b ys).mp hb with rfl | hb
      · exact h2 b y (Bool.not_eq_true _ ▸ hxy) hny
      · exact hy b hb hny

theorem sortWith_null_after (le : α → α → Bool) (nl : α → Bool)
    (h1 : ∀ a b, le a b = true → nl a = true → nl b = true)
    (h2 : ∀ a b, le a b = false → nl b = true → nl a = true)
    (l : List α) :
    (sortWith le l).Pairwise (fun a b => nl a = true → nl b = true) := by
  induction l with
  | nil => simp [sortWith]
  | cons x xs ih => exact insertSorted_null_after le nl h1 h2 x _ ih

theorem issuerLe_null_right (f : SortField) (dir : SortDir) (a b : Issuer)
    (hle : issuerLe f dir a b = true) (ha : isNullField a f = true) :
    isNullField b f = true := by
  unfold issuerLe at hle
  unfold isNullField at ha ⊢
  have ha' : getField a f = JsVal.null := of_decide_eq_true ha
  apply decide_eq_true
  have hle' : jsCompare dir (getField a f) (getField b f) ≤ 0 :=
    of_decide_eq_true hle
  rw [ha'] at hle'
  cases hb : getField b f with
  | null => rfl
  | str s => rw [hb] at hle'; simp [jsCompare] at hle'
  | num q => rw [hb] at hle'; simp [jsCompare] at hle'

theorem issuerLe_null_left (f : SortField) (dir : SortDir) (a b : Issuer)
    (hle : issuerLe f dir a b = false) (hb : isNullField b f = true) :
    isNullField a f = true := by
  unfold issuerLe at hle
  unfold isNullField at hb ⊢
  have hb' : getField b f = JsVal.null := of_decide_eq_true hb
  apply decide_eq_true
  by_contra ha'
  have : jsCompare dir (getField a f) (getField b f) ≤ 0 := by
    rw [hb']
    cases hav : getField a f with
    | null => exact absurd hav ha'
    | str s => simp [jsCompare]
    | num q => simp [jsCompare]
  rw [decide_eq_true this] at hle
  exact absurd hle (by simp)

/-- C10: for every issuer list, sort field, and direction, the
IssuerTable sort places every issuer whose value for the sort field is
null after every issuer with a non-null value — once a null-field
issuer appears, everything after it is null-field too, regardless of
direction. -/
theorem sortedIssuers_nulls_last (issuers : List Issuer) (f : SortField)
    (dir : SortDir) :
    (sortedIssuers f dir issuers).Pairwise
      (fun a b => isNullField a f = true → isNullField b f = true) :=
  sortWith_null_after (issuerLe f dir) (fun i => isNullField i f)
    (fun a b => issuerLe_null_right f dir a b)
    (fun a b => issuerLe_null_left f dir a b) issuers

/-- C10 witness: a concrete two-issuer list, sorting by score descending,
with one null score: the null-score issuer ends up last. -/
theorem sortedIssuers_nulls_last_witness :
    (sortedIssuers SortField.score SortDir.desc
        [⟨1, "Apple Inc", some "AAPL", some "Tech", some "US", none, none, 0.5, none⟩,
         ⟨2, "Microsoft", some "MSFT", some "Tech", some "US", some 89.2, some "AA", 0.7, none⟩]).Pairwise
      (fun a b => isNullField a SortField.score = true →
        isNullField b SortField.score = true) :=
  sortedIssuers_nulls_last
    [⟨1, "Apple Inc", some "AAPL", some "Tech", some "US", none, none, 0.5, none⟩,
     ⟨2, "Microsoft", some "MSFT", some "Tech", some "US", some 89.2, some "AA", 0.7, none⟩]
    SortField.score SortDir.desc
